import Mathlib

/-!
Verification development for the DB-Model-Creator repository (Python).

The development shallowly embeds the parts of the code that the examined
properties depend on:

* `src/db_model_creator/models.py` — the `Value` field-validator family
  (`Value_Name.valid`, `Value_Type.valid`, `Value_Type.value`) together with
  the static name registry (`Value_Type.TABLE_NAMES` / `VIEW_NAMES`), which is
  modelled as an explicit `TypeNameRegistry` argument.
* `src/db_model_creator_py/component_values.py`,
  `object_components.py`, `orm_objects.py`, `database.py` — the structured
  ingestion pipeline (`FromDict` constructors, `SetLangDb`/`SetLangOrm`/
  `SetTables`/`SetViews`, `Read_JSON`/`Read_YAML` and the XML normalization
  pass of `Read_XML`).  File I/O and the serialization parsers themselves
  (json / yaml / xmltodict) are not modelled; the embedding starts from the
  parsed nested mapping/sequence value, which is what all the examined
  properties are about.
* Python object identity: the `CompValue` classes define no `__eq__`, so `==`
  on them is reference identity.  Where that matters (the `Duplicate`/equality
  property) the wrappers are modelled with explicit allocation ids.

Machine-level caveats recorded next to the definitions: Python `str.strip`
strips a slightly larger whitespace set than the ASCII one modelled here (the
examined inputs contain only ASCII whitespace), and `in` on an enum class is
modelled as value membership (the semantics of Python >= 3.12 and of the
repository's own `EnumParentMeta.__contains__`).
-/

/-! ## Parsed data values

One canonical nested mapping/sequence shape shared by the three serialization
formats after parsing.  Mappings keep key insertion order, like Python dicts.
-/

inductive Data where
  | null : Data
  | str (s : String) : Data
  | list (xs : List Data) : Data
  | map (kvs : List (String × Data)) : Data

/-- Dictionary lookup (`data.get(key, None)` returns `none` for a missing
key); first matching key wins, as Python dict keys are unique. -/
def lookupKV : List (String × Data) → String → Option Data
  | [], _ => none
  | (k, v) :: rest, key => if k = key then some v else lookupKV rest key

/-- Dictionary item assignment `d[key] = v`: replaces the value in place
(keeping the key's insertion position) or appends a new key at the end,
matching Python dict semantics. -/
def setKV : List (String × Data) → String → Data → List (String × Data)
  | [], key, v => [(key, v)]
  | (k, w) :: rest, key, v =>
      if k = key then (key, v) :: rest else (k, w) :: setKV rest key v

/-! ## Python string helpers -/

/-- ASCII whitespace stripped by Python `str.strip()`.  (Python also strips
some Unicode spaces; none of the examined behaviour involves them.) -/
def pyWhitespace (c : Char) : Bool :=
  c == ' ' || c == '\t' || c == '\n' || c == '\r' || c == '\x0b' || c == '\x0c'

/-- Python `str.strip()`. -/
def pyStrip (s : String) : String :=
  ⟨((s.data.dropWhile pyWhitespace).reverse.dropWhile pyWhitespace).reverse⟩

/-- Accumulator loop of `pySplitComma`. -/
def splitCommaAux : List Char → List Char → List String
  | [], acc => [⟨acc.reverse⟩]
  | c :: cs, acc =>
      if c = ',' then (⟨acc.reverse⟩ : String) :: splitCommaAux cs []
      else splitCommaAux cs (c :: acc)

/-- Python `str.split(',')`: splits at every comma with no merging of
adjacent separators; the empty string yields one empty piece. -/
def pySplitComma (s : String) : List String := splitCommaAux s.data []

/-! ## Old package `db_model_creator`: field validators (models.py) -/

/-- First character class of the name rule: `[a-zA-Z_]`. -/
def isNameHeadChar (c : Char) : Bool := c.isAlpha || c == '_'

/-- Remaining character class of the name rule: `[a-zA-Z0-9_]`. -/
def isNameTailChar (c : Char) : Bool := c.isAlphanum || c == '_'

/-- The anchored search
`re.search("^[a-zA-Z_][a-zA-Z0-9_]*$", s) is not None` evaluated on the
character list of `s`.  With both anchors and no MULTILINE flag the search
succeeds iff the whole string matches; the Python corner case of `$` also
matching before a final newline cannot arise because the scrutinee has been
stripped first (models.py line 1483-1486). -/
def nameScan : List Char → Bool
  | [] => false
  | c :: cs => isNameHeadChar c && cs.all isNameTailChar

/-- `Value_Name.valid` (models.py lines 1472-1486): the trimmed data must
match `^[a-zA-Z_][a-zA-Z0-9_]*$`. -/
def Value_Name.valid (data : String) : Bool :=
  nameScan (pyStrip data).data

/-- `Value_Name.value` (models.py lines 1490-1493). -/
def Value_Name.value (data : String) : String := pyStrip data

/-- The value set of the `TYPES_PYTHON3` enum (types.py lines 26-128), in
source order. -/
def TYPES_PYTHON3_values : List String :=
  ["bool", "bytes", "bytearray", "typing.Callable", "complex", "typing.Dict",
   "float", "typing.FrozenSet", "int", "typing.List", "memoryview", "None",
   "typing.Optional", "range", "typing.Set", "str", "typing.Tuple", "type",
   "typing.Union"]

/-- Supported backend languages of the old package (models.py lines 100-133).
-/
inductive Database_Lang where
  | PYTHON3 : Database_Lang

/-- `Database_Lang.get_language_types` (models.py lines 113-133), as the value
set of the returned enum; membership tests on the enum class check member
values. -/
def get_language_types : Database_Lang → List String
  | .PYTHON3 => TYPES_PYTHON3_values

/-- The static registry `Value_Type.TABLE_NAMES` / `Value_Type.VIEW_NAMES`
(models.py lines 1610-1615), passed explicitly. -/
structure TypeNameRegistry where
  TABLE_NAMES : List String
  VIEW_NAMES : List String

/-- `Value_Type.valid` (models.py lines 1645-1674), embedded exactly as
written: the empty (stripped) input returns `True` immediately; otherwise the
data is split on commas and the loop returns `False` as soon as a stripped
piece IS a member of the language type set or of the registered table/view
names, returning `True` only when no piece is.  (The source comment on line
1667 announces the opposite polarity; the embedded behaviour is what the code
does.) -/
def Value_Type.valid (data : String) (lang : Database_Lang)
    (reg : TypeNameRegistry) : Bool :=
  let d := pyStrip data
  if d.data = [] then true
  else
    let lang_types := get_language_types lang
    (pySplitComma d).all (fun piece =>
      let ts := pyStrip piece
      !(lang_types.contains ts || reg.TABLE_NAMES.contains ts
        || reg.VIEW_NAMES.contains ts))

/-- `Database.PREFIX_TABLENAME` (models.py line 77). -/
def PREFIX_TABLENAME : String := "DB_"

/-- `Database.PREFIX_VIEWNAME` (models.py line 82). -/
def PREFIX_VIEWNAME : String := "VW_"

/-- An ASCII single-quote character as a string (used by the canonical type
rendering below). -/
def singleQuote : String := (Char.ofNat 39).toString

/-- The helper `value_to_string_python3` inside `Value_Type.value`
(models.py lines 1694-1708). -/
def value_to_string_python3 (reg : TypeNameRegistry) (val : String) : String :=
  if TYPES_PYTHON3_values.contains val then val
  else if reg.TABLE_NAMES.contains val then
    singleQuote ++ PREFIX_TABLENAME ++ val ++ singleQuote
  else if reg.VIEW_NAMES.contains val then
    singleQuote ++ PREFIX_VIEWNAME ++ val ++ singleQuote
  else "\"" ++ val ++ "\""

/-- `Value_Type.value` (models.py lines 1679-1722) for the one supported
language, PYTHON3.  The empty stripped input canonicalizes to
`TYPES_PYTHON3.NONE.value`, that is the string `"None"`; multiple
comma-separated references are joined and wrapped in the union rendering
(the source interpolates the enum member itself, producing the literal text
`TYPES_PYTHON3.UNION`, which is embedded as written). -/
def Value_Type.value (data : String) (lang : Database_Lang)
    (reg : TypeNameRegistry) : String :=
  match lang with
  | .PYTHON3 =>
      let d := pyStrip data
      if d.data = [] then "None"
      else
        let pieces := (pySplitComma d).map
          (fun v => value_to_string_python3 reg (pyStrip v))
        let values_str := String.intercalate ", " pieces
        if (pySplitComma d).length > 1 then
          "TYPES_PYTHON3.UNION[" ++ values_str ++ "]"
        else values_str

/-- The Type validity rule as the specification states it (spec section 3):
every comma-delimited reference in the trimmed input must resolve to a
member of the closed primitive-type set of the configured language or to a
registered table/view name; the empty input is valid.  Stated separately so
it can be compared with the embedded `Value_Type.valid`. -/
def spec_TypeValid (data : String) (lang : Database_Lang)
    (reg : TypeNameRegistry) : Bool :=
  let d := pyStrip data
  if d.data = [] then true
  else
    let lang_types := get_language_types lang
    (pySplitComma d).all (fun piece =>
      let ts := pyStrip piece
      lang_types.contains ts || reg.TABLE_NAMES.contains ts
        || reg.VIEW_NAMES.contains ts)

/-! ## A small regular-expression semantics

Used to state the Name rule the way the specification writes it (a regular
expression) independently of the character-scan implementation. -/

/-- Regular expressions over characters: a character class, concatenation,
and Kleene star. -/
inductive RE where
  | cls (p : Char → Bool) : RE
  | seq (a b : RE) : RE
  | star (r : RE) : RE

/-- The matching relation of `RE`. -/
inductive REMatch : RE → List Char → Prop where
  | cls {p : Char → Bool} {c : Char} (h : p c = true) : REMatch (.cls p) [c]
  | seq {a b : RE} {xs ys : List Char} :
      REMatch a xs → REMatch b ys → REMatch (.seq a b) (xs ++ ys)
  | starNil {r : RE} : REMatch (.star r) []
  | starCons {r : RE} {xs ys : List Char} :
      REMatch r xs → REMatch (.star r) ys → REMatch (.star r) (xs ++ ys)

/-- The regular expression `[a-zA-Z_][a-zA-Z0-9_]*` (anchored on both sides
by construction: `REMatch` consumes the whole input). -/
def nameRE : RE := .seq (.cls isNameHeadChar) (.star (.cls isNameTailChar))

/-! ## Python object identity for the `CompValue` family

`component_values.py` defines no `__eq__` on `CompValue` or any subclass, so
`==` between two wrappers is reference identity.  The wrappers are modelled
with explicit allocation ids: each constructor call consumes fresh ids from a
counter, and identity equality compares ids. -/

/-- A `CompValue` wrapper object: allocation id plus the wrapped string
(`_data`, component_values.py line 99). -/
structure CompValueObj where
  id : Nat
  data : String

/-- Python `==` on `CompValue` objects: reference identity (no `__eq__` is
defined anywhere in the `CompValue` hierarchy). -/
def cvIs (a b : CompValueObj) : Bool := a.id == b.id

/-- An `ORM_Column` instance at the object level: the `CompValue` wrappers
`_desc`/`_name`/`_title` allocated by `ORM.__init__` (orm_objects.py lines
119-123), the optional `_fk` wrapper, and the plain fields (`_type` is stored
as a raw string, orm_objects.py line 415). -/
structure ORM_ColumnObj where
  _desc : CompValueObj
  _name : CompValueObj
  _title : CompValueObj
  _fk : Option CompValueObj
  _identity : Bool
  _nullable : Bool
  _pk : Bool
  _type : String
  _unique : Bool

/-- `ORM_Column.__init__` (orm_objects.py lines 348-419): `ORM.__init__`
allocates the `_desc`, `_name`, `_title` wrappers in that order, then
`_fk = CompValue_Fk(fk) if fk else None` allocates a fourth wrapper only when
`fk` is truthy.  `ctr` supplies fresh allocation ids; the updated counter is
returned. -/
def ORM_ColumnObj.new (name type_ title desc : String)
    (nullable pk identity : Bool) (fk : Option String) (unique : Bool)
    (ctr : Nat) : ORM_ColumnObj × Nat :=
  let descO : CompValueObj := ⟨ctr, desc⟩
  let nameO : CompValueObj := ⟨ctr + 1, name⟩
  let titleO : CompValueObj := ⟨ctr + 2, title⟩
  match fk with
  | some s =>
      if s = "" then
        (⟨descO, nameO, titleO, none, identity, nullable, pk, type_, unique⟩,
         ctr + 3)
      else
        (⟨descO, nameO, titleO, some ⟨ctr + 3, s⟩, identity, nullable, pk,
          type_, unique⟩, ctr + 4)
  | none =>
      (⟨descO, nameO, titleO, none, identity, nullable, pk, type_, unique⟩,
       ctr + 3)

/-- `ORM.__eq__` (orm_objects.py lines 88-94) chained with
`ORM_Column.__eq__` (lines 334-344): `_desc`, `_title` and `_fk` are compared
with `==`, which for `CompValue` objects is reference identity; `name` is the
property returning the wrapped string `self._name.data` (line 129-131), so it
compares by value; the remaining fields are plain booleans and a string. -/
def ORM_ColumnObj.eq (a b : ORM_ColumnObj) : Bool :=
  cvIs a._desc b._desc && cvIs a._title b._title
    && (a._name.data == b._name.data)
    && (match a._fk, b._fk with
        | none, none => true
        | some x, some y => cvIs x y
        | _, _ => false)
    && (a._identity == b._identity) && (a._nullable == b._nullable)
    && (a._pk == b._pk) && (a._type == b._type) && (a._unique == b._unique)

/-- `ORM_Column.Duplicate` (orm_objects.py lines 423-434): re-invokes the
constructor on the wrapped data, allocating fresh wrapper objects. -/
def ORM_ColumnObj.Duplicate (c : ORM_ColumnObj) (ctr : Nat) :
    ORM_ColumnObj × Nat :=
  ORM_ColumnObj.new c._name.data c._type c._title.data c._desc.data
    c._nullable c._pk c._identity
    (match c._fk with | some f => some f.data | none => none)
    c._unique ctr

/-- A concrete column object, allocated from a fresh counter: the
`status_id` column of the repository's own test model
(tests/test_read.py lines 50-57). -/
def colObjC3 : ORM_ColumnObj :=
  (ORM_ColumnObj.new "status_id" "tinyint" "Primary Key ID"
    "Primary Key ID for the Status." true true true none false 0).1

/-- The counter value after allocating `colObjC3`. -/
def colObjC3Ctr : Nat :=
  (ORM_ColumnObj.new "status_id" "tinyint" "Primary Key ID"
    "Primary Key ID for the Status." true true true none false 0).2

/-! ## New package `db_model_creator_py`: errors and enumerations -/

/-- The exception kinds raised by the ingestion pipeline (errors.py together
with the built-in ValueError/TypeError/RuntimeError used throughout
database.py, orm_objects.py and object_components.py).  Message strings keep
the fixed text of the source message; interpolated fragments (indexes, repr
of offending values, type names) are abstracted away. -/
inductive Err where
  | valueError (msg : String) : Err
  | typeError (msg : String) : Err
  | runtimeError (msg : String) : Err
  | readError (msg : String) : Err
  | unpackError : Err

/-- `LangDb` (supported_languages.py lines 26-34). -/
inductive LangDb where
  | MSSQL : LangDb

/-- `LangOrm` (supported_languages.py lines 40-48). -/
inductive LangOrm where
  | PYTHON_SQLALCHEMY : LangOrm

/-- `MethodType` (generic_objects.py lines 207-223); constructors renamed
from the source's CLASS / INSTANCE / STATIC, with values given by
`methodTypeOfString` below. -/
inductive MethodType where
  | clsMethod : MethodType
  | instanceMethod : MethodType
  | staticMethod : MethodType

/-- `MethodType(value)` construction; `value in MethodType` succeeds exactly
when this returns `some` (`EnumParentMeta.__contains__`, generic_objects.py
lines 225-233). -/
def methodTypeOfString : String → Option MethodType
  | "class" => some .clsMethod
  | "instance" => some .instanceMethod
  | "static" => some .staticMethod
  | _ => none

/-! ## Field-extraction helpers shared by the `FromDict` constructors

Each `FromDict` in the source repeats the same three-step pattern per field;
the helpers below embed one instance of that pattern each.  `what` carries the
field description used in the source's message. -/

/-- Required string field: `data.get(key, None)`; `None` (missing key or a
null value) raises ValueError, a non-string raises TypeError, an empty string
raises ValueError. -/
def reqStrField (kvs : List (String × Data)) (key what : String) :
    Except Err String :=
  match lookupKV kvs key with
  | none => .error (.valueError ("Failed to read " ++ what))
  | some .null => .error (.valueError ("Failed to read " ++ what))
  | some (.str s) =>
      if s = "" then .error (.valueError (what ++ " must not be empty"))
      else .ok s
  | some _ => .error (.typeError (what ++ " expected a str type"))

/-- Optional string field with default `''`: `data.get(key, '')` followed by
an `isinstance(_, str)` check (a present null or non-string value raises
TypeError). -/
def optStrField (kvs : List (String × Data)) (key what : String) :
    Except Err String :=
  match lookupKV kvs key with
  | none => .ok ""
  | some (.str s) => .ok s
  | some _ => .error (.typeError (what ++ " expected a str or None type"))

/-- Optional boolean-like field: `data.get(key, dflt)` followed by membership
in the list of the two literal strings True and False; any other value
(including a present null or non-string) raises ValueError. -/
def boolStrField (kvs : List (String × Data)) (key dflt what : String) :
    Except Err Bool :=
  let v : Data := match lookupKV kvs key with
    | none => .str dflt
    | some d => d
  match v with
  | .str s =>
      if s = "True" then .ok true
      else if s = "False" then .ok false
      else .error
        (.valueError (what ++ " expected a str value of either True or False"))
  | _ => .error
      (.valueError (what ++ " expected a str value of either True or False"))

/-- Required boolean-like field (`trigger_update`): `data.get(key, None)`
with a preceding existence check, then the same True/False membership test. -/
def reqBoolStrField (kvs : List (String × Data)) (key what : String) :
    Except Err Bool :=
  match lookupKV kvs key with
  | none => .error (.valueError ("Failed to read " ++ what))
  | some .null => .error (.valueError ("Failed to read " ++ what))
  | some (.str s) =>
      if s = "True" then .ok true
      else if s = "False" then .ok false
      else .error
        (.valueError (what ++ " expected a str value of either True or False"))
  | some _ => .error
      (.valueError (what ++ " expected a str value of either True or False"))

/-- Required list field: `data.get(key, None)` with existence check, then an
`isinstance(_, list)` check. -/
def reqListField (kvs : List (String × Data)) (key what : String) :
    Except Err (List Data) :=
  match lookupKV kvs key with
  | none => .error (.valueError ("Failed to read " ++ what))
  | some .null => .error (.valueError ("Failed to read " ++ what))
  | some (.list xs) => .ok xs
  | some _ => .error (.typeError (what ++ " expected a list type"))

/-- Python tuple unpacking `i, x = e` of one iterable into two targets, as it
happens in the `for i, col in _cols:` loops of `ORM_Table.FromDict` /
`ORM_View.FromDict` (the source omits `enumerate`, so each ELEMENT of the
sequence is unpacked).  Iterating a dict yields its keys; iterating a string
yields its characters; null is not iterable.  Anything that does not yield
exactly two items raises (ValueError / TypeError, collapsed to
`unpackError`). -/
def unpack2 : Data → Except Err (Data × Data)
  | .map kvs =>
      match kvs with
      | [(k1, _), (k2, _)] => .ok (.str k1, .str k2)
      | _ => .error .unpackError
  | .list xs =>
      match xs with
      | [a, b] => .ok (a, b)
      | _ => .error .unpackError
  | .str s =>
      match s.data with
      | [c1, c2] => .ok (.str c1.toString, .str c2.toString)
      | _ => .error .unpackError
  | .null => .error .unpackError

/-! ## Object components (object_components.py), data level

In the ingestion pipeline the `CompValue` wrappers only carry their string,
so the components are modelled at data level: `_title` and `_default` are
`Option String` reflecting the constructor's
`CompValue_X(v) if v else None` truthiness conversions
(object_components.py lines 128-134). -/

/-- Truthiness conversion `CompValue_X(v) if v else None` applied to the
string argument `v`. -/
def strToOpt (s : String) : Option String :=
  if s = "" then none else some s

structure ObjComp_Constant where
  _name : String
  _type : String
  _desc : String
  _default : Option String
  _title : Option String

structure ObjComp_MethodParam where
  _name : String
  _type : String
  _desc : String
  _default : Option String

structure ObjComp_Method where
  _name : String
  _type : String
  _desc : String
  _default : Option String
  _title : Option String
  _method_type : MethodType
  _params : List ObjComp_MethodParam
  _flag_constructor : Bool

structure ObjComp_Property where
  _name : String
  _type : String
  _desc : String
  _default : Option String
  _title : Option String
  _readonly : Bool

/-- `ObjComp_Constant.FromDict` (object_components.py lines 389-453). -/
def ObjComp_Constant.FromDict (kvs : List (String × Data)) :
    Except Err ObjComp_Constant :=
  match reqStrField kvs "name" "Constant Name (name)" with
  | .error e => .error e
  | .ok _name =>
  match reqStrField kvs "type_" "Constant Data Type (type_)" with
  | .error e => .error e
  | .ok _type =>
  match reqStrField kvs "desc" "Constant Description (desc)" with
  | .error e => .error e
  | .ok _desc =>
  match reqStrField kvs "title" "Constant Title (title)" with
  | .error e => .error e
  | .ok _title =>
  match optStrField kvs "default" "Constant Default Value (default)" with
  | .error e => .error e
  | .ok _default =>
    .ok ⟨_name, _type, _desc, strToOpt _default, strToOpt _title⟩

/-- `ObjComp_MethodParam.FromDict` (object_components.py lines 789-849). -/
def ObjComp_MethodParam.FromDict (kvs : List (String × Data)) :
    Except Err ObjComp_MethodParam :=
  match reqStrField kvs "name" "Method Parameter Name (name)" with
  | .error e => .error e
  | .ok _name =>
  match reqStrField kvs "type_" "Method Parameter Data Type (type_)" with
  | .error e => .error e
  | .ok _type =>
  match reqStrField kvs "desc" "Method Parameter Description (desc)" with
  | .error e => .error e
  | .ok _desc =>
  match optStrField kvs "default" "Method Parameter Default Value (default)" with
  | .error e => .error e
  | .ok _default =>
    .ok ⟨_name, _type, _desc, strToOpt _default⟩

/-- `ObjComp_Property.FromDict` (object_components.py lines 951-1024). -/
def ObjComp_Property.FromDict (kvs : List (String × Data)) :
    Except Err ObjComp_Property :=
  match reqStrField kvs "name" "Property Name (name)" with
  | .error e => .error e
  | .ok _name =>
  match reqStrField kvs "type_" "Property Data Type (type_)" with
  | .error e => .error e
  | .ok _type =>
  match reqStrField kvs "desc" "Property Description (desc)" with
  | .error e => .error e
  | .ok _desc =>
  match reqStrField kvs "title" "Property Title (title)" with
  | .error e => .error e
  | .ok _title =>
  match optStrField kvs "default" "Property Default Value (default)" with
  | .error e => .error e
  | .ok _default =>
  match boolStrField kvs "readonly" "False" "Property Read-Only Status (readonly)" with
  | .error e => .error e
  | .ok _readonly =>
    .ok ⟨_name, _type, _desc, strToOpt _default, strToOpt _title, _readonly⟩

/-- The body of the parameter loop of `ObjComp_Method.FromDict`
(object_components.py lines 663-678): the loop header is
`for i, param in enumerate(params)` where `params` is the accumulator
initialized to the empty list on line 663 — it iterates the ACCUMULATOR, not
the extracted `_params` sequence.  Its elements (were there any) would be
`ObjComp_MethodParam` objects, never dicts, so the body would raise the
isinstance TypeError; over the empty accumulator the loop simply does
nothing. -/
def methodParamAccLoop : List ObjComp_MethodParam →
    Except Err (List ObjComp_MethodParam)
  | [] => .ok []
  | _ :: _ => .error (.typeError "Method Parameter expected a dict type")

/-- `ObjComp_Method.FromDict` (object_components.py lines 591-707), including
the accumulator-loop slip on line 664. -/
def ObjComp_Method.FromDict (kvs : List (String × Data)) :
    Except Err ObjComp_Method :=
  match reqStrField kvs "name" "Method Name (name)" with
  | .error e => .error e
  | .ok _name =>
  match reqStrField kvs "type_" "Method Data Type (type_)" with
  | .error e => .error e
  | .ok _type =>
  match reqStrField kvs "desc" "Method Description (desc)" with
  | .error e => .error e
  | .ok _desc =>
  match reqStrField kvs "title" "Method Title (title)" with
  | .error e => .error e
  | .ok _title =>
  match
    (match lookupKV kvs "methodtype" with
     | none => Except.ok (Data.str "instance")
     | some d => Except.ok d : Except Err Data) with
  | .error e => .error e
  | .ok _mtdata =>
  match
    (match _mtdata with
     | .str s =>
         match methodTypeOfString s with
         | some mt => Except.ok mt
         | none => Except.error (Err.valueError "Invalid Method Type (methodtype)")
     | _ => Except.error
         (Err.typeError "Method Type (methodtype) expected a str type")) with
  | .error e => .error e
  | .ok _methodtype =>
  match reqListField kvs "params" "Method Parameters (params)" with
  | .error e => .error e
  | .ok _params =>
  match methodParamAccLoop [] with
  | .error e => .error e
  | .ok params =>
  match optStrField kvs "default" "Method Default Value (default)" with
  | .error e => .error e
  | .ok _default =>
  match boolStrField kvs "flag_constructor" "False"
      "Method Flag-Constructor Value (flag_constructor)" with
  | .error e => .error e
  | .ok _flag_constructor =>
    .ok ⟨_name, _type, _desc, strToOpt _default, strToOpt _title,
         _methodtype, params, _flag_constructor⟩

/-! ## ORM objects (orm_objects.py), data level -/

/-- An `ORM_Column` at data level: `_fk` is `Option String` reflecting
`CompValue_Fk(fk) if fk else None` (orm_objects.py line 403). -/
structure ORM_Column where
  _name : String
  _type : String
  _title : String
  _desc : String
  _nullable : Bool
  _pk : Bool
  _identity : Bool
  _fk : Option String
  _unique : Bool

structure ORM_Table where
  _name : String
  _tablename : String
  _title : String
  _desc : String
  _trigger_update : Bool
  _cols : List ORM_Column
  _constants : List ObjComp_Constant
  _methods : List ObjComp_Method
  _props : List ObjComp_Property

structure ORM_View where
  _name : String
  _viewname : String
  _title : String
  _desc : String
  _cols : List ORM_Column
  _constants : List ObjComp_Constant
  _methods : List ObjComp_Method
  _props : List ObjComp_Property

/-- `ORM_Column.FromDict` (orm_objects.py lines 439-544).  The foreign-key
extraction on line 526 reads `data.get('title', '')` — the `title` key, not
`fk` — and that is embedded as written. -/
def ORM_Column.FromDict (kvs : List (String × Data)) :
    Except Err ORM_Column :=
  match reqStrField kvs "name" "Column Name (name)" with
  | .error e => .error e
  | .ok _name =>
  match reqStrField kvs "type_" "Column Type (type_)" with
  | .error e => .error e
  | .ok _type =>
  match reqStrField kvs "title" "Column Title (title)" with
  | .error e => .error e
  | .ok _title =>
  match reqStrField kvs "desc" "Column Description (desc)" with
  | .error e => .error e
  | .ok _desc =>
  match boolStrField kvs "nullable" "True" "Column Nullable Status (nullable)" with
  | .error e => .error e
  | .ok _nullable =>
  match boolStrField kvs "pk" "False" "Column Primary Key Status (pk)" with
  | .error e => .error e
  | .ok _pk =>
  match boolStrField kvs "identity" "False" "Column Identity Status (identity)" with
  | .error e => .error e
  | .ok _identity =>
  match optStrField kvs "title" "Column Foreign Key Status (fk)" with
  | .error e => .error e
  | .ok _fk =>
  match boolStrField kvs "unique" "False" "Column Unique Key Status (unique)" with
  | .error e => .error e
  | .ok _unique =>
    .ok ⟨_name, _type, _title, _desc, _nullable, _pk, _identity,
         strToOpt _fk, _unique⟩

/-- One child-collection loop of `ORM_Table.FromDict` / `ORM_View.FromDict`
(orm_objects.py lines 941-955 and the three analogous loops): the header
`for i, child in _children:` (no `enumerate`) unpacks each ELEMENT into the
pair `(i, child)`; the isinstance check raising TypeError and the
try/except wrapping child construction into a RuntimeError follow the
source.  The interpolated index of both messages is abstracted. -/
def childLoop {α : Type} (fromDict : List (String × Data) → Except Err α)
    (typeMsg wrapMsg : String) : List Data → Except Err (List α)
  | [] => .ok []
  | e :: rest =>
      match unpack2 e with
      | .error er => .error er
      | .ok (_, child) =>
          match child with
          | .map ckvs =>
              match fromDict ckvs with
              | .error _ => .error (.runtimeError wrapMsg)
              | .ok c =>
                  match childLoop fromDict typeMsg wrapMsg rest with
                  | .error er => .error er
                  | .ok cs => .ok (c :: cs)
          | _ => .error (.typeError typeMsg)

/-- `ORM_Table.FromDict` (orm_objects.py lines 861-1046). -/
def ORM_Table.FromDict (kvs : List (String × Data)) :
    Except Err ORM_Table :=
  match reqStrField kvs "name" "Table ORM Name (name)" with
  | .error e => .error e
  | .ok _name =>
  match reqStrField kvs "tablename" "Table Database Name (tablename)" with
  | .error e => .error e
  | .ok _tablename =>
  match reqStrField kvs "title" "Table Title (title)" with
  | .error e => .error e
  | .ok _title =>
  match reqStrField kvs "desc" "Table Description (desc)" with
  | .error e => .error e
  | .ok _desc =>
  match reqBoolStrField kvs "trigger_update"
      "Table Trigger-Update Flag (trigger_update)" with
  | .error e => .error e
  | .ok _tu =>
  match reqListField kvs "cols" "Table Columns (cols)" with
  | .error e => .error e
  | .ok _cols =>
  if _cols.length < 1 then
    .error (.valueError "Table Columns (cols) must contain at least one column")
  else
  match childLoop ORM_Column.FromDict "Column expected a dict type"
      "Failed to create column" _cols with
  | .error e => .error e
  | .ok cols =>
  match reqListField kvs "constants" "Table Constants (constants)" with
  | .error e => .error e
  | .ok _consts =>
  match childLoop ObjComp_Constant.FromDict "Constant expected a dict type"
      "Failed to create constant" _consts with
  | .error e => .error e
  | .ok consts =>
  match reqListField kvs "methods" "Table Methods (methods)" with
  | .error e => .error e
  | .ok _methods =>
  match childLoop ObjComp_Method.FromDict "Method expected a dict type"
      "Failed to create method" _methods with
  | .error e => .error e
  | .ok methods =>
  match reqListField kvs "props" "Table Properties (props)" with
  | .error e => .error e
  | .ok _props =>
  match childLoop ObjComp_Property.FromDict "Property expected a dict type"
      "Failed to create property" _props with
  | .error e => .error e
  | .ok props =>
    .ok ⟨_name, _tablename, _title, _desc, _tu, cols, consts, methods, props⟩

/-- `ORM_View.FromDict` (orm_objects.py lines 1194-1365).  It reads the
`tablename` key (line 1208, not `viewname`), and its final constructor call
on lines 1356-1365 passes the keyword argument `tablename` to
`ORM_View.__init__`, whose signature has no such parameter (lines 1123-1133)
— so a fully extracted view still raises TypeError at the constructor call,
embedded as the final error. -/
def ORM_View.FromDict (kvs : List (String × Data)) :
    Except Err ORM_View :=
  match reqStrField kvs "name" "Table ORM Name (name)" with
  | .error e => .error e
  | .ok _name =>
  match reqStrField kvs "tablename" "Table Database Name (tablename)" with
  | .error e => .error e
  | .ok _tablename =>
  match reqStrField kvs "title" "Table Title (title)" with
  | .error e => .error e
  | .ok _title =>
  match reqStrField kvs "desc" "Table Description (desc)" with
  | .error e => .error e
  | .ok _desc =>
  match reqListField kvs "cols" "Table Columns (cols)" with
  | .error e => .error e
  | .ok _cols =>
  if _cols.length < 1 then
    .error (.valueError "Table Columns (cols) must contain at least one column")
  else
  match childLoop ORM_Column.FromDict "Column expected a dict type"
      "Failed to create column" _cols with
  | .error e => .error e
  | .ok _cols2 =>
  match reqListField kvs "constants" "Table Constants (constants)" with
  | .error e => .error e
  | .ok _consts =>
  match childLoop ObjComp_Constant.FromDict "Constant expected a dict type"
      "Failed to create constant" _consts with
  | .error e => .error e
  | .ok _consts2 =>
  match reqListField kvs "methods" "Table Methods (methods)" with
  | .error e => .error e
  | .ok _methods =>
  match childLoop ObjComp_Method.FromDict "Method expected a dict type"
      "Failed to create method" _methods with
  | .error e => .error e
  | .ok _methods2 =>
  match reqListField kvs "props" "Table Properties (props)" with
  | .error e => .error e
  | .ok _props =>
  match childLoop ObjComp_Property.FromDict "Property expected a dict type"
      "Failed to create property" _props with
  | .error e => .error e
  | .ok _props2 =>
    .error (.typeError
      "ORM_View constructor got an unexpected keyword argument tablename")

/-! ## Database aggregate (database.py) -/

structure Database where
  _lang_db : LangDb
  _lang_orm : LangOrm
  _tables : List ORM_Table
  _views : List ORM_View

/-- `Database.SetLangDb` (database.py lines 473-509): existence check, string
check, membership in the `LangDb` enum values, then construction. -/
def Database.SetLangDb (val : Option Data) : Except Err LangDb :=
  match val with
  | none => .error (.valueError "Failed to read Database Language (lang_db)")
  | some .null => .error (.valueError "Failed to read Database Language (lang_db)")
  | some (.str s) =>
      if s = "mssql" then .ok LangDb.MSSQL
      else .error (.valueError "Invalid Database Language (lang_db)")
  | some _ => .error (.typeError "Database Language (lang_db) expected a str type")

/-- `Database.SetLangOrm` (database.py lines 513-549). -/
def Database.SetLangOrm (val : Option Data) : Except Err LangOrm :=
  match val with
  | none => .error (.valueError "Failed to read ORM Language (lang_orm)")
  | some .null => .error (.valueError "Failed to read ORM Language (lang_orm)")
  | some (.str s) =>
      if s = "python-sqlalchemy" then .ok LangOrm.PYTHON_SQLALCHEMY
      else .error (.valueError "Invalid ORM Language (lang_orm)")
  | some _ => .error (.typeError "ORM Language (lang_orm) expected a str type")

/-- The entity loop of `Database.SetTables` / `Database.SetViews`
(database.py lines 588-602 and 641-655): this top-level loop does use
`enumerate`, so elements are visited directly; a non-dict element raises
TypeError and a failing `FromDict` is wrapped into RuntimeError. -/
def setEntityLoop {α : Type} (fromDict : List (String × Data) → Except Err α)
    (typeMsg wrapMsg : String) : List Data → Except Err (List α)
  | [] => .ok []
  | e :: rest =>
      match e with
      | .map ekvs =>
          match fromDict ekvs with
          | .error _ => .error (.runtimeError wrapMsg)
          | .ok x =>
              match setEntityLoop fromDict typeMsg wrapMsg rest with
              | .error er => .error er
              | .ok xs => .ok (x :: xs)
      | _ => .error (.typeError typeMsg)

/-- `Database.SetTables` (database.py lines 553-602). -/
def Database.SetTables (val : Option Data) : Except Err (List ORM_Table) :=
  match val with
  | none => .error (.valueError "Failed to read Tables (tables)")
  | some .null => .error (.valueError "Failed to read Tables (tables)")
  | some (.list xs) =>
      if xs.length < 1 then
        .error (.valueError "Tables (tables) must contain at least one table")
      else
        setEntityLoop ORM_Table.FromDict "Table expected a dict type"
          "Failed to create table" xs
  | some _ => .error (.typeError "Tables (tables) expected a list type")

/-- `Database.SetViews` (database.py lines 606-655). -/
def Database.SetViews (val : Option Data) : Except Err (List ORM_View) :=
  match val with
  | none => .error (.valueError "Failed to read Views (views)")
  | some .null => .error (.valueError "Failed to read Views (views)")
  | some (.list xs) =>
      if xs.length < 1 then
        .error (.valueError "Views (views) must contain at least one view")
      else
        setEntityLoop ORM_View.FromDict "View expected a dict type"
          "View failed to create" xs
  | some _ => .error (.typeError "Views (views) expected a list type")

/-- `Database.Read_JSON` (database.py lines 254-300) from the parsed
top-level JSON object onwards: the four setters run in source order
(lang_db, lang_orm, tables, views), each aborting the run on failure. -/
def Database.Read_JSON (kvs : List (String × Data)) : Except Err Database :=
  match Database.SetLangDb (lookupKV kvs "lang_db") with
  | .error e => .error e
  | .ok ldb =>
  match Database.SetLangOrm (lookupKV kvs "lang_orm") with
  | .error e => .error e
  | .ok lorm =>
  match Database.SetTables (lookupKV kvs "tables") with
  | .error e => .error e
  | .ok tbls =>
  match Database.SetViews (lookupKV kvs "views") with
  | .error e => .error e
  | .ok vws => .ok ⟨ldb, lorm, tbls, vws⟩

/-! ### The shared name registry

`CompValue` (component_values.py lines 71-78) and `ORM` (orm_objects.py
lines 77-84) hold static `tables`/`views` collections used as the shared
name registry for Type/Foreign-Key validation; `CompValue.LoadData`
(lines 126-158) and `ORM.LoadData` (lines 196-228) are the only operations
that write them. -/

structure NameRegistry where
  tables : List String
  views : List String

/-- `CompValue.LoadData` (component_values.py lines 126-158), reduced to the
database-side names it registers: it overwrites the static registry with the
given collections.  It is defined in the source but never invoked from
`Database.Read` / `Read_JSON` / `Read_XML` / `Read_YAML` / `SetTables` /
`SetViews`. -/
def CompValue.LoadData (tables views : List String) : NameRegistry :=
  ⟨tables, views⟩

/-- `Database.Read_JSON` with the shared static registry threaded through
explicitly.  The source read path (database.py lines 254-300 and 553-655)
contains no call to `CompValue.LoadData` or `ORM.LoadData`, so the registry
value passes through the whole ingestion unchanged. -/
def Database.Read_JSON_tracked (kvs : List (String × Data))
    (reg : NameRegistry) : Except Err Database × NameRegistry :=
  (Database.Read_JSON kvs, reg)

/-! ### XML normalization pass (`Database.Read_XML`, database.py 344-406)

`xmltodict` collapses a single child element into a mapping instead of a
one-element list; the pass below is the source's in-place repair loop,
rendered as a pure transformation (the mutation is single-threaded, so
rebuilding the mappings is observationally the same). -/

/-- Python substring containment `needle in hay` for strings. -/
def strContainsSub (hay needle : String) : Bool :=
  (hay.splitOn needle).length > 1

/-- One singleton-lift step (database.py lines 369-377): when `key` is
present, holds a mapping, and that mapping has `sub`, replace the value by
the sub-value lifted to a list (wrapping a non-list singleton); otherwise
leave the mapping unchanged. -/
def liftListKey (kvs : List (String × Data)) (key sub : String) :
    List (String × Data) :=
  match lookupKV kvs key with
  | some (.map inner) =>
      match lookupKV inner sub with
      | some (.list xs) => setKV kvs key (.list xs)
      | some v => setKV kvs key (.list [v])
      | none => kvs
  | _ => kvs

/-- The body of the params repair loop (database.py lines 394-405) for one
element of the (already lifted) methods list.  A mapping gets the
`params`/`param` lift; for a non-mapping element the membership test
`'params' in method` follows Python semantics (substring test on strings,
element membership on lists, TypeError on null), and a successful membership
test leads into the TypeError of indexing a non-dict. -/
def normMethodElem : Data → Except Err Data
  | .map mkvs => .ok (.map (liftListKey mkvs "params" "param"))
  | .str s =>
      if strContainsSub s "params" then
        .error (.typeError "string indices must be integers")
      else .ok (.str s)
  | .list xs =>
      if xs.any (fun d => match d with | .str t => t = "params" | _ => false)
      then .error (.typeError "list indices must be integers")
      else .ok (.list xs)
  | .null => .error (.typeError "argument of type NoneType is not iterable")

/-- The per-table/view repair (database.py lines 359-405): non-mapping
elements are skipped; a mapping gets the three `columns`/`constants`/`props`
lifts in order (note the source lifts the key `columns`, while the schema and
`ORM_Table.FromDict` use `cols`), then the `methods` lift followed by the
params repair of every method element. -/
def normTableView : Data → Except Err Data
  | .map tv =>
      let tv1 := liftListKey tv "columns" "column"
      let tv2 := liftListKey tv1 "constants" "constant"
      let tv3 := liftListKey tv2 "props" "prop"
      match lookupKV tv3 "methods" with
      | some (.map inner) =>
          match lookupKV inner "method" with
          | some v =>
              let ms := match v with | .list xs => xs | other => [other]
              match ms.mapM normMethodElem with
              | .error e => .error e
              | .ok ms2 => .ok (.map (setKV tv3 "methods" (.list ms2)))
          | none => .ok (.map tv3)
      | _ => .ok (.map tv3)
  | other => .ok other

/-- The top-level repair for one of `tables`/`views` (database.py lines
345-358): when the key holds a mapping containing the singular sub-key, the
value is replaced by the sub-value WITHOUT lifting a non-list singleton (a
single table/view therefore stays a mapping, and the per-element repair then
does not run, per the isinstance guard on line 356). -/
def normTV (kvs : List (String × Data)) (key sub : String) :
    Except Err (List (String × Data)) :=
  match lookupKV kvs key with
  | some (.map inner) =>
      match lookupKV inner sub with
      | some v =>
          let kvs1 := setKV kvs key v
          match v with
          | .list xs =>
              match xs.mapM normTableView with
              | .error e => .error e
              | .ok xs2 => .ok (setKV kvs1 key (.list xs2))
          | _ => .ok kvs1
      | none => .ok kvs
  | _ => .ok kvs

/-- The whole normalization pass of `Database.Read_XML` (database.py lines
344-406). -/
def xmlNormalize (kvs : List (String × Data)) :
    Except Err (List (String × Data)) :=
  match normTV kvs "tables" "table" with
  | .error e => .error e
  | .ok k1 => normTV k1 "views" "view"

/-- `Database.Read_XML` (database.py lines 304-419) from the parsed
`xmltodict` value of the `database` element onwards: the normalization pass,
then the same four setter calls as the other readers (lines 409-419). -/
def Database.Read_XML (kvs : List (String × Data)) : Except Err Database :=
  match xmlNormalize kvs with
  | .error e => .error e
  | .ok k =>
  match Database.SetLangDb (lookupKV k "lang_db") with
  | .error e => .error e
  | .ok ldb =>
  match Database.SetLangOrm (lookupKV k "lang_orm") with
  | .error e => .error e
  | .ok lorm =>
  match Database.SetTables (lookupKV k "tables") with
  | .error e => .error e
  | .ok tbls =>
  match Database.SetViews (lookupKV k "views") with
  | .error e => .error e
  | .ok vws => .ok ⟨ldb, lorm, tbls, vws⟩

/-- `Database.Read_YAML` (database.py lines 423-469) from the parsed
top-level YAML mapping onwards: textually the same four setter calls as
`Read_JSON` (lines 459-469 mirror lines 290-300). -/
def Database.Read_YAML (kvs : List (String × Data)) : Except Err Database :=
  match Database.SetLangDb (lookupKV kvs "lang_db") with
  | .error e => .error e
  | .ok ldb =>
  match Database.SetLangOrm (lookupKV kvs "lang_orm") with
  | .error e => .error e
  | .ok lorm =>
  match Database.SetTables (lookupKV kvs "tables") with
  | .error e => .error e
  | .ok tbls =>
  match Database.SetViews (lookupKV kvs "views") with
  | .error e => .error e
  | .ok vws => .ok ⟨ldb, lorm, tbls, vws⟩

/-! ## Concrete schema inputs used by the theorems -/

/-- A well-formed column mapping (every required key, no `fk`). -/
def colUserKVs : List (String × Data) :=
  [("name", .str "user_id"), ("type_", .str "int"),
   ("title", .str "User ID"), ("desc", .str "The user id.")]

/-- A well-formed table mapping in the canonical (JSON/YAML) shape. -/
def tblUsersKVs : List (String × Data) :=
  [("name", .str "Users"), ("tablename", .str "Users"),
   ("title", .str "Users Table"), ("desc", .str "All users."),
   ("trigger_update", .str "False"),
   ("cols", .list [.map colUserKVs]),
   ("constants", .list []), ("methods", .list []), ("props", .list [])]

/-- A well-formed view mapping in the canonical (JSON/YAML) shape. -/
def viewUsersKVs : List (String × Data) :=
  [("name", .str "ActiveUsers"), ("viewname", .str "ActiveUsers"),
   ("title", .str "Active Users"), ("desc", .str "Active users."),
   ("cols", .list [.map colUserKVs]),
   ("constants", .list []), ("methods", .list []), ("props", .list [])]

/-- The minimal schema (one table, one view) as parsed from JSON or YAML. -/
def minSchemaJSON : List (String × Data) :=
  [("lang_db", .str "mssql"), ("lang_orm", .str "python-sqlalchemy"),
   ("tables", .list [.map tblUsersKVs]),
   ("views", .list [.map viewUsersKVs])]

/-- The same table as `xmltodict` parses it: the single column collapsed
into a mapping under `cols`, the empty child collections parsed as null. -/
def tblUsersXmlKVs : List (String × Data) :=
  [("name", .str "Users"), ("tablename", .str "Users"),
   ("title", .str "Users Table"), ("desc", .str "All users."),
   ("trigger_update", .str "False"),
   ("cols", .map [("column", .map colUserKVs)]),
   ("constants", .null), ("methods", .null), ("props", .null)]

/-- The same view as `xmltodict` parses it. -/
def viewUsersXmlKVs : List (String × Data) :=
  [("name", .str "ActiveUsers"), ("viewname", .str "ActiveUsers"),
   ("title", .str "Active Users"), ("desc", .str "Active users."),
   ("cols", .map [("column", .map colUserKVs)]),
   ("constants", .null), ("methods", .null), ("props", .null)]

/-- The minimal schema as `xmltodict` parses the equivalent XML document:
single children collapsed into mappings all the way down. -/
def minSchemaXML : List (String × Data) :=
  [("lang_db", .str "mssql"), ("lang_orm", .str "python-sqlalchemy"),
   ("tables", .map [("table", .map tblUsersXmlKVs)]),
   ("views", .map [("view", .map viewUsersXmlKVs)])]

/-- A column that references the `Users` table through its `fk` key. -/
def colOrderUserKVs : List (String × Data) :=
  [("name", .str "order_user"), ("type_", .str "int"),
   ("title", .str "Order User"), ("desc", .str "FK to user."),
   ("fk", .str "Users.user_id")]

/-- A table whose column carries a forward reference to `Users`. -/
def tblOrdersKVs : List (String × Data) :=
  [("name", .str "Orders"), ("tablename", .str "Orders"),
   ("title", .str "Orders Table"), ("desc", .str "All orders."),
   ("trigger_update", .str "False"),
   ("cols", .list [.map colOrderUserKVs]),
   ("constants", .list []), ("methods", .list []), ("props", .list [])]

/-- A schema in which `Orders` references `Users.user_id` while `Users` is
declared later in the same document (the forward-reference scenario of the
specification). -/
def fwdRefSchema : List (String × Data) :=
  [("lang_db", .str "mssql"), ("lang_orm", .str "python-sqlalchemy"),
   ("tables", .list [.map tblOrdersKVs, .map tblUsersKVs]),
   ("views", .list [.map viewUsersKVs])]

/-- An XML-parsed table with exactly one `column` element under `cols`. -/
def xmlC5Table : List (String × Data) :=
  [("name", .str "Users"), ("tablename", .str "Users"),
   ("title", .str "Users Table"), ("desc", .str "All users."),
   ("trigger_update", .str "False"),
   ("cols", .map [("column", .map colUserKVs)])]

/-- An XML-parsed document with two such tables (so the per-table repair
loop of the normalizer actually runs) and one collapsed view. -/
def xmlC5Data : List (String × Data) :=
  [("lang_db", .str "mssql"), ("lang_orm", .str "python-sqlalchemy"),
   ("tables", .map [("table", .list [.map xmlC5Table, .map xmlC5Table])]),
   ("views", .map [("view", .map viewUsersXmlKVs)])]

/-- What the normalization pass actually produces on `xmlC5Data`: the table
list is unwrapped, but each table still holds `cols` as the singleton
wrapper mapping, and the single view stays a mapping. -/
def xmlC5Normalized : List (String × Data) :=
  [("lang_db", .str "mssql"), ("lang_orm", .str "python-sqlalchemy"),
   ("tables", .list [.map xmlC5Table, .map xmlC5Table]),
   ("views", .map viewUsersXmlKVs)]

/-- A column mapping whose `fk` key is absent, used for the foreign-key
population check. -/
def colC6NoFk : List (String × Data) :=
  [("name", .str "status_id"), ("type_", .str "tinyint"),
   ("title", .str "Primary Key ID"), ("desc", .str "The status id.")]

/-- A column mapping whose `fk` key is present with value
`Users.user_id`. -/
def colC6WithFk : List (String × Data) :=
  [("name", .str "status_user"), ("type_", .str "int"),
   ("title", .str "Status User"), ("desc", .str "FK to user."),
   ("fk", .str "Users.user_id")]

/-- The column `ORM_Column.FromDict` builds from `colC6NoFk`. -/
def colC6NoFkResult : ORM_Column :=
  ⟨"status_id", "tinyint", "Primary Key ID", "The status id.", true, false,
   false, some "Primary Key ID", false⟩

/-- The column `ORM_Column.FromDict` builds from `colC6WithFk`. -/
def colC6WithFkResult : ORM_Column :=
  ⟨"status_user", "int", "Status User", "FK to user.", true, false, false,
   some "Status User", false⟩

/-- A schema with one well-formed table and zero declared views. -/
def schemaC7NoViews : List (String × Data) :=
  [("lang_db", .str "mssql"), ("lang_orm", .str "python-sqlalchemy"),
   ("tables", .list [.map tblUsersKVs]), ("views", .list [])]

/-- A `cols` element crafted as a two-element sequence, which the
`for i, col in _cols:` header of `ORM_Table.FromDict` unpacks into an index
and a mapping, letting table construction complete. -/
def colC7Pair : Data := .list [.str "i0", .map colUserKVs]

/-- A table whose `cols` elements use the two-element-sequence shape, so
`ORM_Table.FromDict` succeeds on it. -/
def tblC7KVs : List (String × Data) :=
  [("name", .str "Users"), ("tablename", .str "Users"),
   ("title", .str "Users Table"), ("desc", .str "All users."),
   ("trigger_update", .str "True"),
   ("cols", .list [colC7Pair]),
   ("constants", .list []), ("methods", .list []), ("props", .list [])]

/-- A schema whose table sequence constructs successfully and whose view
sequence is empty. -/
def schemaC7W : List (String × Data) :=
  [("lang_db", .str "mssql"), ("lang_orm", .str "python-sqlalchemy"),
   ("tables", .list [.map tblC7KVs]), ("views", .list [])]

/-- The column constructed from `colUserKVs` (with the foreign key populated
from the title, as the source does). -/
def colC7Result : ORM_Column :=
  ⟨"user_id", "int", "User ID", "The user id.", true, false, false,
   some "User ID", false⟩

/-- The table constructed from `tblC7KVs`. -/
def tblC7Result : ORM_Table :=
  ⟨"Users", "Users", "Users Table", "All users.", true, [colC7Result],
   [], [], []⟩

/-- An empty type-name registry. -/
def emptyTypeReg : TypeNameRegistry := ⟨[], []⟩

/-- The parameter mapping inside `methodC10KVs`. -/
def paramC10KVs : List (String × Data) :=
  [("name", .str "default_value"), ("type_", .str "str"),
   ("desc", .str "Default value.")]

/-- A well-formed method mapping whose `params` sequence holds one
parameter mapping. -/
def methodC10KVs : List (String × Data) :=
  [("name", .str "get_name"), ("type_", .str "str"),
   ("desc", .str "Gets the name."), ("title", .str "Get Name"),
   ("params", .list [.map paramC10KVs])]

/-- The method `ObjComp_Method.FromDict` builds from `methodC10KVs`. -/
def methodC10Result : ObjComp_Method :=
  ⟨"get_name", "str", "Gets the name.", none, some "Get Name",
   .instanceMethod, [], false⟩

/-! ## Helper lemmas for the Name regular expression -/

/-- A match of `(cls p)*` is exactly a list on which `p` holds
everywhere. -/
theorem star_cls_all {r : RE} {xs : List Char} (h : REMatch r xs) :
    ∀ p : Char → Bool, r = RE.star (RE.cls p) → xs.all p = true := by
  induction h with
  | cls hpc => intro p hr; exact RE.noConfusion hr
  | seq h1 h2 ih1 ih2 => intro p hr; exact RE.noConfusion hr
  | starNil => intro p hr; rfl
  | starCons h1 h2 ih1 ih2 =>
      intro p hr
      injection hr with hr0
      subst hr0
      cases h1 with
      | cls hpc =>
          have hys := ih2 p rfl
          simp [List.all_append, hpc, hys]

/-- Every list on which `p` holds everywhere matches `(cls p)*`. -/
theorem all_star_cls (p : Char → Bool) (xs : List Char)
    (h : xs.all p = true) : REMatch (RE.star (RE.cls p)) xs := by
  induction xs with
  | nil => exact REMatch.starNil
  | cons c cs ih =>
      rw [List.all_cons, Bool.and_eq_true] at h
      exact REMatch.starCons (REMatch.cls h.1) (ih h.2)

/-- The character scan embedded from `Value_Name.valid` agrees with the
regular expression `[a-zA-Z_][a-zA-Z0-9_]*` matched against the whole
input. -/
theorem nameScan_iff (l : List Char) :
    nameScan l = true ↔ REMatch nameRE l := by
  constructor
  · intro h
    cases l with
    | nil => simp [nameScan] at h
    | cons c cs =>
        rw [show nameScan (c :: cs) = (isNameHeadChar c && cs.all isNameTailChar) from rfl,
            Bool.and_eq_true] at h
        exact REMatch.seq (REMatch.cls h.1) (all_star_cls _ _ h.2)
  · intro h
    have h' : REMatch (RE.seq (RE.cls isNameHeadChar)
        (RE.star (RE.cls isNameTailChar))) l := h
    cases h' with
    | seq h1 h2 =>
        cases h1 with
        | cls hpc =>
            have hall := star_cls_all h2 isNameTailChar rfl
            simp [nameScan, hpc, hall]

/-! ## Claim theorems -/

/-- C1: the claim states that reading semantically identical schema content
through the JSON, XML and YAML readers produces structurally equal Database
aggregates.  On the code, no aggregate is ever produced: the minimal
well-formed schema fails in every format.  The JSON and YAML readers fail
inside `ORM_Table.FromDict`, whose column loop `for i, col in _cols:` (no
`enumerate`) unpacks the first column mapping and raises, which `SetTables`
wraps into a RuntimeError; the XML reader fails even earlier because the
normalizer leaves a single table as a mapping, which `SetTables` rejects as
a non-list. -/
theorem C1_all_formats_fail_on_minimal_schema :
    Database.Read_JSON minSchemaJSON
      = .error (.runtimeError "Failed to create table")
  ∧ Database.Read_YAML minSchemaJSON
      = .error (.runtimeError "Failed to create table")
  ∧ Database.Read_XML minSchemaXML
      = .error (.typeError "Tables (tables) expected a list type") :=
  ⟨rfl, rfl, rfl⟩

/-- C2: the claim states that every table/view database-side name is
registered in the shared name registry before per-entity validation, so a
forward-referencing schema ingests successfully.  On the code, the read path
never calls `CompValue.LoadData`/`ORM.LoadData`, so ingesting the
forward-reference schema leaves an initially empty registry empty — and the
ingestion itself fails at the first table. -/
theorem C2_no_registration_and_fwd_ref_fails :
    Database.Read_JSON_tracked fwdRefSchema ⟨[], []⟩
      = (.error (.runtimeError "Failed to create table"), ⟨[], []⟩) :=
  rfl

/-- C3: the claim states that `Duplicate()` returns a value structurally
equal to the original.  On the code, `CompValue` defines no `__eq__`, so the
wrapper comparisons inside `ORM.__eq__` are reference-identity comparisons;
a duplicated column therefore compares unequal to its original. -/
theorem C3_duplicate_not_equal :
    ORM_ColumnObj.eq ((ORM_ColumnObj.Duplicate colObjC3 colObjC3Ctr).1)
      colObjC3 = false :=
  rfl

/-- C4: the claim states that a Type validator is valid iff every
comma-delimited reference resolves against the primitive types or the
registered table/view names.  `Value_Type.valid` implements the opposite
polarity: the resolvable reference `str` is reported invalid and the
unresolvable reference `NotARealType` is reported valid, diverging from the
spec-side rule `spec_TypeValid` at both inputs. -/
theorem C4_type_valid_polarity_inverted :
    Value_Type.valid "str" .PYTHON3 emptyTypeReg = false
  ∧ spec_TypeValid "str" .PYTHON3 emptyTypeReg = true
  ∧ Value_Type.valid "NotARealType" .PYTHON3 emptyTypeReg = true
  ∧ spec_TypeValid "NotARealType" .PYTHON3 emptyTypeReg = false :=
  ⟨rfl, rfl, rfl, rfl⟩

/-- C5: the claim states that an XML document with exactly one `column`
under `cols` normalizes to a one-element column sequence.  The normalizer
only repairs the key `columns`, so after the pass each table of the
concrete document still holds `cols` as the singleton wrapper mapping. -/
theorem C5_cols_not_normalized :
    xmlNormalize xmlC5Data = .ok xmlC5Normalized
  ∧ lookupKV xmlC5Table "cols" = some (.map [("column", .map colUserKVs)]) :=
  ⟨rfl, rfl⟩

/-- C6: the claim states that a column's foreign key is populated from the
mapping's `fk` key (absent key: no constraint; present key: that string).
`ORM_Column.FromDict` reads `data.get('title', '')` instead: without an `fk`
key the column still receives a foreign key carrying the title, and with
`fk` present the `fk` string is ignored in favour of the title. -/
theorem C6_fk_populated_from_title :
    ORM_Column.FromDict colC6NoFk = .ok colC6NoFkResult
  ∧ colC6NoFkResult._fk = some "Primary Key ID"
  ∧ ORM_Column.FromDict colC6WithFk = .ok colC6WithFkResult
  ∧ colC6WithFkResult._fk = some "Status User" :=
  ⟨rfl, rfl, rfl, rfl⟩

/-- C7 counterexample: the claim states that a schema with zero declared
views fails with the structural-count view error before any table is
constructed.  On the concrete zero-view schema with one ordinary table, the
run fails first inside table construction (a RuntimeError from
`SetTables`), not with the view structural-count error. -/
theorem C7_counterexample_table_error_first :
    Database.Read_JSON schemaC7NoViews
      = .error (.runtimeError "Failed to create table") :=
  rfl

/-- C7 (amended): for a schema with zero declared views, ingestion does
fail — but the zero-view structural-count error surfaces only after the
language tags are read and the entire table sequence has been processed
successfully, because `SetTables` runs before `SetViews`. -/
theorem C7_views_error_after_tables (kvs : List (String × Data))
    (ldb : LangDb) (lorm : LangOrm) (ts : List ORM_Table)
    (h1 : Database.SetLangDb (lookupKV kvs "lang_db") = .ok ldb)
    (h2 : Database.SetLangOrm (lookupKV kvs "lang_orm") = .ok lorm)
    (h3 : Database.SetTables (lookupKV kvs "tables") = .ok ts)
    (h4 : lookupKV kvs "views" = some (.list [])) :
    Database.Read_JSON kvs
      = .error (.valueError "Views (views) must contain at least one view") := by
  unfold Database.Read_JSON
  rw [h1, h2, h3, h4]
  rfl

/-- C7 witness: a concrete zero-view schema whose table sequence constructs
successfully, on which the amended claim applies. -/
theorem C7_views_error_after_tables_witness :
    Database.Read_JSON schemaC7W
      = .error (.valueError "Views (views) must contain at least one view") :=
  C7_views_error_after_tables schemaC7W LangDb.MSSQL
    LangOrm.PYTHON_SQLALCHEMY [tblC7Result] rfl rfl rfl rfl

/-- C8: a Name validator is valid iff the trimmed input matches
`^[A-Za-z_][A-Za-z0-9_]*$`; in particular `user_id` is valid while `2cool`
and the empty string are not. -/
theorem C8_name_valid_iff_regex :
    (∀ s : String,
      Value_Name.valid s = true ↔ REMatch nameRE (pyStrip s).data)
  ∧ Value_Name.valid "user_id" = true
  ∧ Value_Name.valid "2cool" = false
  ∧ Value_Name.valid "" = false := by
  refine ⟨fun s => nameScan_iff (pyStrip s).data, rfl, rfl, rfl⟩

/-- C9: a Type validator constructed from the empty string is valid, and
its canonical value for the Python 3 language is the string `None`,
whatever names are registered. -/
theorem C9_empty_type_valid_and_none (reg : TypeNameRegistry) :
    Value_Type.valid "" .PYTHON3 reg = true
  ∧ Value_Type.value "" .PYTHON3 reg = "None" :=
  ⟨rfl, rfl⟩

/-- C9 witness: the property instantiated at the empty registry. -/
theorem C9_empty_type_valid_and_none_witness :
    Value_Type.valid "" .PYTHON3 emptyTypeReg = true
  ∧ Value_Type.value "" .PYTHON3 emptyTypeReg = "None" :=
  C9_empty_type_valid_and_none emptyTypeReg

/-- C10: every method that `ObjComp_Method.FromDict` accepts has an empty
parameter list, because the construction loop iterates the empty output
accumulator instead of the extracted `params` sequence. -/
theorem C10_method_params_always_empty (kvs : List (String × Data))
    (m : ObjComp_Method) (h : ObjComp_Method.FromDict kvs = .ok m) :
    m._params = [] := by
  unfold ObjComp_Method.FromDict at h
  simp only [methodParamAccLoop] at h
  repeat' split at h
  all_goals
    first
      | exact Except.noConfusion h
      | (injection h with h2; rw [← h2])

/-- C10 witness: a concrete accepted method mapping whose input `params`
sequence is non-empty while the constructed method's parameter list is
empty. -/
theorem C10_method_params_always_empty_witness :
    ObjComp_Method.FromDict methodC10KVs = .ok methodC10Result
  ∧ methodC10Result._params = [] :=
  ⟨rfl, C10_method_params_always_empty methodC10KVs methodC10Result rfl⟩
